import Mathlib

/-!
Shallow embedding of the jupyter-marimo-proxy tools extension
(src/jupyter_marimo_proxy/handlers.py plus the configuration resolver
described by the spec and exercised by src/tests/test_config.py).

Handlers are modelled as pure functions from the request data and the
results of their external effects (JSON parsing, executable location,
subprocess execution, process termination) to the HTTP outcome, together
with a trace of the subprocess commands started and termination attempts
made, so that claims about "no subprocess is started" and "no termination
attempted" are statable.
-/

namespace MarimoProxy

/-- A JSON scalar value appearing in the handlers' response bodies. -/
inductive JVal where
  | b (v : Bool)
  | s (v : String)
deriving DecidableEq

/-- A JSON object, as an ordered list of key/value pairs. -/
abbrev JObj := List (String × JVal)

/-- The outcome of `subprocess.run(..., capture_output=True, text=True)`:
exit code, captured standard output and captured standard error. -/
structure SubprocessResult where
  returncode : Int
  stdout : String
  stderr : String
deriving DecidableEq

/-- What a handler coroutine produces: a finished HTTP response
(status code and JSON body passed to `self.finish`), or an exception
that escapes the handler body uncaught (to be handled by the host
web framework, outside this repository). -/
inductive HandlerResult where
  | response (status : Nat) (body : JObj)
  | uncaught (exc : String)
deriving DecidableEq

/-- Whether the handler produced a finished response (as opposed to
letting an exception propagate past the handler boundary). -/
def HandlerResult.isResponse : HandlerResult → Bool
  | .response _ _ => true
  | .uncaught _ => false

/-- A parsed JSON request body, as key/value pairs with string values
(the fields the convert endpoint reads are strings). -/
abbrev RequestBody := List (String × String)

/-- Python `data.get(k)`: the value at the first matching key, if any. -/
def dictGet (d : RequestBody) (k : String) : Option String :=
  (d.find? (fun kv => kv.1 == k)).map (fun kv => kv.2)

/-- Python truthiness of an optional string: `None` and the empty
string are falsy, every other string is truthy. -/
def strTruthy : Option String → Bool
  | none => false
  | some s => s != ""

/-- Shallow embedding of `ConvertHandler.post` (handlers.py).

* `parsed` is the result of `json.loads(self.request.body)`; `none`
  models a raised `json.JSONDecodeError` (the handler body has no
  try/except, so the exception escapes).
* `locator` is the combined result of `get_config()` /
  `get_marimo_command(config)`: `.ok cmd` is the located launch
  command, `.error e` models the exception raised when the external
  tool cannot be located (executable.py; its failure mode is the
  "tool not found" condition).
* `runner` gives the `subprocess.run` outcome for a command line.

Returns the handler result together with the list of subprocess
command lines started, in order. -/
def convertPost (parsed : Option RequestBody)
    (locator : Except String (List String))
    (runner : List String → SubprocessResult) :
    HandlerResult × List (List String) :=
  match parsed with
  | none => (.uncaught "json.JSONDecodeError", [])
  | some data =>
    let input_path := dictGet data "input"
    let output_path := dictGet data "output"
    if strTruthy input_path = false ∨ strTruthy output_path = false then
      (.response 400 [("success", .b false),
        ("error", .s "Missing input or output path")], [])
    else
      match locator with
      | .error e => (.uncaught e, [])
      | .ok marimo_cmd =>
        let cmd := marimo_cmd ++
          ["convert", input_path.getD "", "-o", output_path.getD ""]
        let result := runner cmd
        if result.returncode = 0 then
          (.response 200 [("success", .b true),
            ("output", .s (output_path.getD ""))], [cmd])
        else
          (.response 500 [("success", .b false),
            ("error", .s (if result.stderr = "" then result.stdout
              else result.stderr))], [cmd])

/-- A value stored under the `"proc"` key of the borrowed proxy-state
dict: a managed process handle (identified here by a number), or the
string sentinel `"process not managed"`. Both are truthy in Python. -/
inductive ProcVal where
  | managed (pid : Nat)
  | sentinel
deriving DecidableEq

/-- The outcome of `await proc.kill()`: a normal return, or a raised
exception (for example when the process is already dead). -/
inductive KillBehavior where
  | ok
  | raises (msg : String)
deriving DecidableEq

/-- The borrowed jupyter-server-proxy state dict, restricted to the
entries this extension touches: whether the `"proc_lock"` key is
present, and the value under the `"proc"` key when present. -/
structure ProxyState where
  hasLock : Bool
  proc : Option ProcVal
deriving DecidableEq

/-- Python truthiness of the state dict (`if not proxy_state`): a dict
is falsy exactly when it is empty, that is when none of its entries is
present. -/
def ProxyState.isTruthy (st : ProxyState) : Bool :=
  st.hasLock || st.proc.isSome

/-- One registered route: the `state` entry of `spec.kwargs` when the
spec has a `kwargs` attribute containing a `state` key, and the path
pattern string `spec.regex.pattern`. -/
structure HandlerSpec where
  stateKw : Option ProxyState
  pattern : String

/-- Whether the first character list is an initial segment of the
second. -/
def charsLeading : List Char → List Char → Bool
  | [], _ => true
  | _ :: _, [] => false
  | a :: as, b :: bs => a == b && charsLeading as bs

/-- Whether the first character list occurs contiguously inside the
second. -/
def charsInside (needle : List Char) : List Char → Bool
  | [] => charsLeading needle []
  | b :: bs => charsLeading needle (b :: bs) || charsInside needle bs

/-- Python `needle in hay` on strings (substring containment). -/
def containsSub (needle hay : String) : Bool :=
  charsInside needle.data hay.data

/-- Inner loop of `_find_marimo_proxy_state`: the first spec whose
kwargs carry a `state` entry and whose pattern mentions `marimo`. -/
def findInSpecs : List HandlerSpec → Option ProxyState
  | [] => none
  | s :: rest =>
    match s.stateKw with
    | some st =>
      if containsSub "marimo" s.pattern then some st else findInSpecs rest
    | none => findInSpecs rest

/-- Shallow embedding of `_find_marimo_proxy_state` (handlers.py):
scan `web_app.handlers`, a list of (host pattern, handler specs)
pairs, returning the first matching spec's state dict. -/
def findMarimoProxyState :
    List (String × List HandlerSpec) → Option ProxyState
  | [] => none
  | (_, hs) :: rest =>
    match findInSpecs hs with
    | some st => some st
    | none => findMarimoProxyState rest

/-- The result of one restart request: the HTTP outcome, the
proxy-state record after the handler ran (`none` when no record was
located), and the list of process values termination was attempted
on. -/
structure RestartOutcome where
  result : HandlerResult
  finalState : Option ProxyState
  killAttempts : List ProcVal
deriving DecidableEq

/-- Shallow embedding of `RestartHandler.post` (handlers.py).

* `handlers` is `self.application.handlers`, scanned by
  `_find_marimo_proxy_state`.
* `kill` gives the behaviour of `await proc.kill()` on a process
  value; its exception is swallowed by the inner
  `except Exception: pass`.

A missing `"proc_lock"` key would raise a `KeyError` inside the outer
try block, which the outer `except Exception` turns into a 500. -/
def restartPost (handlers : List (String × List HandlerSpec))
    (kill : ProcVal → KillBehavior) : RestartOutcome :=
  match findMarimoProxyState handlers with
  | none =>
    { result := .response 503 [("success", .b false),
        ("error", .s "Proxy not initialized yet")]
      finalState := none
      killAttempts := [] }
  | some st =>
    if st.isTruthy = false then
      { result := .response 503 [("success", .b false),
          ("error", .s "Proxy not initialized yet")]
        finalState := some st
        killAttempts := [] }
    else if st.hasLock = false then
      { result := .response 500 [("success", .b false),
          ("error", .s "KeyError: proc_lock")]
        finalState := some st
        killAttempts := [] }
    else
      match st.proc with
      | some p =>
        if p = ProcVal.sentinel then
          { result := .response 200 [("success", .b true),
              ("message", .s "Server restarting")]
            finalState := some { st with proc := none }
            killAttempts := [] }
        else
          match kill p with
          | .ok =>
            { result := .response 200 [("success", .b true),
                ("message", .s "Server restarting")]
              finalState := some { st with proc := none }
              killAttempts := [p] }
          | .raises _ =>
            { result := .response 200 [("success", .b true),
                ("message", .s "Server restarting")]
              finalState := some { st with proc := none }
              killAttempts := [p] }
      | none =>
        { result := .response 200 [("success", .b true),
            ("message", .s "Server restarting")]
          finalState := some st
          killAttempts := [] }

/-- Modelled from the spec: the environment variables consumed by the
Configuration Resolver. config.py is not under src/ (only its tests
are), so the resolver is modelled from spec section 4.1 and the
variables listed in section 6 and src/tests/conftest.py. -/
structure Env where
  marimoPathVar : Option String
  uvxPathVar : Option String
  timeoutVar : Option String
  uvVar : Option String
  hubPrefixVar : Option String
deriving DecidableEq

/-- Modelled from the spec: the structured override object (the
traitlets configuration class); `none` is a field left at its unset
sentinel. -/
structure Overrides where
  marimo_path : Option String
  uvx_path : Option String
  timeout : Option Int
deriving DecidableEq

/-- The built-in default timeout, in seconds (src/tests/test_config.py
documents it as 60). -/
def DEFAULT_TIMEOUT : Int := 60

/-- Drop leading whitespace characters from a character list. -/
def dropLeadingSpaces : List Char → List Char
  | [] => []
  | c :: cs => if c.isWhitespace then dropLeadingSpaces cs else c :: cs

/-- Strip whitespace from both ends of a character list. -/
def trimChars (cs : List Char) : List Char :=
  (dropLeadingSpaces (dropLeadingSpaces cs).reverse).reverse

/-- Read a decimal digit string into an accumulator; fails on any
non-digit character. -/
def digitsAccum : List Char → Nat → Option Nat
  | [], acc => some acc
  | c :: cs, acc =>
    if c.isDigit then digitsAccum cs (acc * 10 + (c.toNat - 48)) else none

/-- The value of a non-empty decimal digit string. -/
def digitsToNat : List Char → Option Nat
  | [] => none
  | c :: cs => digitsAccum (c :: cs) 0

/-- Python `int(s)` on a string: surrounding whitespace is ignored, an
optional sign is followed by a non-empty digit string; anything else
fails. -/
def parsePyInt (s : String) : Option Int :=
  match trimChars s.data with
  | [] => none
  | c :: cs =>
    if c = '-' then (digitsToNat cs).map (fun n => -(n : Int))
    else if c = '+' then (digitsToNat cs).map (fun n => (n : Int))
    else (digitsToNat (c :: cs)).map (fun n => (n : Int))

/-- The immutable resolved Settings record. -/
structure Config where
  marimo_path : Option String
  uvx_path : Option String
  timeout : Int
  base_url : String
deriving DecidableEq

/-- Modelled from the spec: `get_config` (config.py, not under src/).
Per-field resolution order, highest priority first: structured
override attribute when not left at its unset sentinel, then the
corresponding environment variable, then the built-in default. The
runner path falls back to the generic runner-discovery variable `UV`
before its default. The timeout environment value is parsed as an
integer, silently falling back to the built-in default on parse
failure. The base URL joins the service prefix with the fixed
segment `marimo`, defaulting to `/marimo`. -/
def get_config (env : Env) (ov : Overrides) : Config :=
  { marimo_path :=
      match ov.marimo_path with
      | some v => some v
      | none => env.marimoPathVar
    uvx_path :=
      match ov.uvx_path with
      | some v => some v
      | none =>
        match env.uvxPathVar with
        | some v => some v
        | none => env.uvVar
    timeout :=
      match ov.timeout with
      | some t => t
      | none =>
        match env.timeoutVar with
        | some s => (parsePyInt s).getD DEFAULT_TIMEOUT
        | none => DEFAULT_TIMEOUT
    base_url :=
      match env.hubPrefixVar with
      | some p => if p.endsWith "/" then p ++ "marimo" else p ++ "/marimo"
      | none => "/marimo" }

/-- C1: a convert request whose JSON body lacks the "input" field or
lacks the "output" field gets status 400 with body
`{"success": false, "error": "Missing input or output path"}`, and no
subprocess is started. -/
theorem convert_missing_field_400 (data : RequestBody)
    (locator : Except String (List String))
    (runner : List String → SubprocessResult)
    (h : dictGet data "input" = none ∨ dictGet data "output" = none) :
    convertPost (some data) locator runner =
      (.response 400 [("success", .b false),
        ("error", .s "Missing input or output path")], []) := by
  rcases h with h | h <;> simp [convertPost, h, strTruthy]

/-- C1 witness: the body `{"output": "x.py"}` lacks "input" and gets
the 400 response with no subprocess command started. -/
theorem convert_missing_field_400_witness :
    convertPost (some [("output", "x.py")]) (.ok ["marimo"])
      (fun _ => ⟨0, "", ""⟩) =
      (.response 400 [("success", .b false),
        ("error", .s "Missing input or output path")], []) :=
  convert_missing_field_400 [("output", "x.py")] (.ok ["marimo"])
    (fun _ => ⟨0, "", ""⟩) (Or.inl (by decide))

/-- C10: a convert request whose JSON body carries "input" or "output"
as the empty string is treated as missing (the check is by Python
truthiness): status 400, the same error body, and no subprocess. -/
theorem convert_empty_field_400 (data : RequestBody)
    (locator : Except String (List String))
    (runner : List String → SubprocessResult)
    (h : dictGet data "input" = some "" ∨ dictGet data "output" = some "") :
    convertPost (some data) locator runner =
      (.response 400 [("success", .b false),
        ("error", .s "Missing input or output path")], []) := by
  rcases h with h | h <;> simp [convertPost, h, strTruthy]

/-- C10 witness: the body `{"input": "", "output": "x.py"}` gets the
400 response with no subprocess command started. -/
theorem convert_empty_field_400_witness :
    convertPost (some [("input", ""), ("output", "x.py")]) (.ok ["marimo"])
      (fun _ => ⟨0, "", ""⟩) =
      (.response 400 [("success", .b false),
        ("error", .s "Missing input or output path")], []) :=
  convert_empty_field_400 [("input", ""), ("output", "x.py")] (.ok ["marimo"])
    (fun _ => ⟨0, "", ""⟩) (Or.inl (by decide))

/-- C2: with both fields present (truthy) and the tool exiting with a
non-zero code, the response is 500 with the captured standard error as
the error text, falling back to captured standard output when the
standard error text is empty. -/
theorem convert_nonzero_exit_500 (data : RequestBody) (cmd : List String)
    (runner : List String → SubprocessResult) (ip op : String)
    (hin : dictGet data "input" = some ip) (hip : ip ≠ "")
    (hout : dictGet data "output" = some op) (hop : op ≠ "")
    (hrc : (runner (cmd ++ ["convert", ip, "-o", op])).returncode ≠ 0) :
    convertPost (some data) (.ok cmd) runner =
      (.response 500 [("success", .b false),
        ("error", .s (if (runner (cmd ++ ["convert", ip, "-o", op])).stderr = ""
          then (runner (cmd ++ ["convert", ip, "-o", op])).stdout
          else (runner (cmd ++ ["convert", ip, "-o", op])).stderr))],
       [cmd ++ ["convert", ip, "-o", op]]) := by
  simp [convertPost, hin, hout, strTruthy, hip, hop, hrc]

/-- C2 witness: a mock tool exiting 1 with standard error "boom" yields
500 with error "boom". -/
theorem convert_nonzero_exit_500_witness :
    convertPost (some [("input", "a.ipynb"), ("output", "a.py")])
      (.ok ["marimo"]) (fun _ => ⟨1, "", "boom"⟩) =
      (.response 500 [("success", .b false), ("error", .s "boom")],
       [["marimo", "convert", "a.ipynb", "-o", "a.py"]]) :=
  convert_nonzero_exit_500 [("input", "a.ipynb"), ("output", "a.py")]
    ["marimo"] (fun _ => ⟨1, "", "boom"⟩) "a.ipynb" "a.py"
    (by decide) (by decide) (by decide) (by decide) (by decide)

/-- C7: with both fields present (truthy) and the launch command
located, the external tool is invoked exactly once with the command
`<launch command> convert <input> -o <output>`, and exit code zero
yields 200 with `{"success": true, "output": <output path>}`. -/
theorem convert_invokes_once (data : RequestBody) (cmd : List String)
    (runner : List String → SubprocessResult) (ip op : String)
    (hin : dictGet data "input" = some ip) (hip : ip ≠ "")
    (hout : dictGet data "output" = some op) (hop : op ≠ "") :
    (convertPost (some data) (.ok cmd) runner).2 =
      [cmd ++ ["convert", ip, "-o", op]] ∧
    ((runner (cmd ++ ["convert", ip, "-o", op])).returncode = 0 →
      (convertPost (some data) (.ok cmd) runner).1 =
        .response 200 [("success", .b true), ("output", .s op)]) := by
  constructor
  · by_cases hrc : (runner (cmd ++ ["convert", ip, "-o", op])).returncode = 0 <;>
      simp [convertPost, hin, hout, strTruthy, hip, hop, hrc]
  · intro hrc
    simp [convertPost, hin, hout, strTruthy, hip, hop, hrc]

/-- C7 witness: a mock tool exiting 0 on `{"input": "a.ipynb",
"output": "a.py"}` is invoked once and yields the success response. -/
theorem convert_invokes_once_witness :
    (convertPost (some [("input", "a.ipynb"), ("output", "a.py")])
      (.ok ["marimo"]) (fun _ => ⟨0, "", ""⟩)).2 =
      [["marimo", "convert", "a.ipynb", "-o", "a.py"]] ∧
    (convertPost (some [("input", "a.ipynb"), ("output", "a.py")])
      (.ok ["marimo"]) (fun _ => ⟨0, "", ""⟩)).1 =
      .response 200 [("success", .b true), ("output", .s "a.py")] := by
  have h := convert_invokes_once [("input", "a.ipynb"), ("output", "a.py")]
    ["marimo"] (fun _ => ⟨0, "", ""⟩) "a.ipynb" "a.py"
    (by decide) (by decide) (by decide) (by decide)
  exact ⟨h.1, h.2 (by decide)⟩

/-- C6: when scanning the registered route table finds no proxy-state
record, the restart handler responds 503 with
`{"success": false, "error": "Proxy not initialized yet"}`, no state
record is touched and no termination is attempted. -/
theorem restart_no_state_503 (handlers : List (String × List HandlerSpec))
    (kill : ProcVal → KillBehavior)
    (h : findMarimoProxyState handlers = none) :
    restartPost handlers kill =
      { result := .response 503 [("success", .b false),
          ("error", .s "Proxy not initialized yet")]
        finalState := none
        killAttempts := [] } := by
  unfold restartPost
  rw [h]

/-- C6 witness: a route table with one state-less route and one route
whose pattern does not mention marimo yields the 503 outcome. -/
theorem restart_no_state_503_witness :
    restartPost
      [(".*", [⟨none, "/user/marimo/.*"⟩, ⟨some ⟨true, none⟩, "/nbconvert/.*"⟩])]
      (fun _ => .ok) =
      { result := .response 503 [("success", .b false),
          ("error", .s "Proxy not initialized yet")]
        finalState := none
        killAttempts := [] } :=
  restart_no_state_503 _ _ (by decide)

/-- C4: when the located proxy-state record tracks the "unmanaged"
sentinel, no termination is attempted on the sentinel, the "proc"
entry is still removed, and the response is 200 with
`{"success": true, "message": "Server restarting"}`. -/
theorem restart_sentinel_removes_proc
    (handlers : List (String × List HandlerSpec))
    (kill : ProcVal → KillBehavior) (st : ProxyState)
    (h : findMarimoProxyState handlers = some st)
    (hl : st.hasLock = true) (hp : st.proc = some ProcVal.sentinel) :
    restartPost handlers kill =
      { result := .response 200 [("success", .b true),
          ("message", .s "Server restarting")]
        finalState := some { st with proc := none }
        killAttempts := [] } := by
  unfold restartPost
  rw [h]
  simp [ProxyState.isTruthy, hl, hp]

/-- C4 witness: a registered marimo route whose state tracks the
sentinel yields the 200 outcome with the proc entry removed and no
kill attempts. -/
theorem restart_sentinel_removes_proc_witness :
    restartPost
      [(".*", [⟨some ⟨true, some ProcVal.sentinel⟩, "/user/marimo/.*"⟩])]
      (fun _ => .raises "should not be called") =
      { result := .response 200 [("success", .b true),
          ("message", .s "Server restarting")]
        finalState := some ⟨true, none⟩
        killAttempts := [] } :=
  restart_sentinel_removes_proc _ _ ⟨true, some ProcVal.sentinel⟩
    (by decide) rfl rfl

/-- C5: when a tracked process handle exists and its termination
raises, the exception is swallowed, termination was attempted on that
handle, the "proc" entry is still removed and the response is 200 with
`{"success": true, "message": "Server restarting"}`. -/
theorem restart_kill_exception_swallowed
    (handlers : List (String × List HandlerSpec))
    (kill : ProcVal → KillBehavior) (st : ProxyState) (pid : Nat) (msg : String)
    (h : findMarimoProxyState handlers = some st)
    (hl : st.hasLock = true) (hp : st.proc = some (ProcVal.managed pid))
    (hk : kill (ProcVal.managed pid) = .raises msg) :
    restartPost handlers kill =
      { result := .response 200 [("success", .b true),
          ("message", .s "Server restarting")]
        finalState := some { st with proc := none }
        killAttempts := [ProcVal.managed pid] } := by
  unfold restartPost
  rw [h]
  simp [ProxyState.isTruthy, hl, hp, hk]

/-- C5 witness: a registered marimo route whose tracked process raises
on kill still yields the 200 outcome with the proc entry removed. -/
theorem restart_kill_exception_swallowed_witness :
    restartPost
      [(".*", [⟨some ⟨true, some (ProcVal.managed 7)⟩, "/user/marimo/.*"⟩])]
      (fun _ => .raises "process already dead") =
      { result := .response 200 [("success", .b true),
          ("message", .s "Server restarting")]
        finalState := some ⟨true, none⟩
        killAttempts := [ProcVal.managed 7] } :=
  restart_kill_exception_swallowed _ _ ⟨true, some (ProcVal.managed 7)⟩
    7 "process already dead" (by decide) rfl rfl rfl

/-- C3 counterexample: a malformed JSON body makes `ConvertHandler.post`
raise an uncaught `json.JSONDecodeError` instead of producing a JSON
error response (the handler body has no try/except), and a
tool-location failure on a well-formed request likewise escapes the
handler uncaught. -/
theorem convert_uncaught_escape_counterexample :
    (convertPost none (.ok ["marimo"]) (fun _ => ⟨0, "", ""⟩)).1.isResponse
      = false ∧
    (convertPost none (.ok ["marimo"]) (fun _ => ⟨0, "", ""⟩)).1 =
      .uncaught "json.JSONDecodeError" ∧
    (convertPost (some [("input", "a.ipynb"), ("output", "a.py")])
      (.error "marimo executable not found") (fun _ => ⟨0, "", ""⟩)).1 =
      .uncaught "marimo executable not found" := by
  refine ⟨rfl, rfl, ?_⟩
  decide

/-- C3 amended: the restart handler converts every failure in its body
to a JSON response, and the convert handler does so for validation
failures and non-zero tool exits; but a malformed JSON request body,
or a tool-location failure on a request with both fields present,
raises an exception that propagates past the convert handler boundary
(handled by the host framework outside this repository). -/
theorem error_containment_amended (locator : Except String (List String))
    (runner : List String → SubprocessResult)
    (handlers : List (String × List HandlerSpec))
    (kill : ProcVal → KillBehavior) (e : String) :
    (convertPost none locator runner).1 = .uncaught "json.JSONDecodeError" ∧
    (∀ data : RequestBody, strTruthy (dictGet data "input") = true →
      strTruthy (dictGet data "output") = true →
      (convertPost (some data) (.error e) runner).1 = .uncaught e) ∧
    (restartPost handlers kill).result.isResponse = true := by
  refine ⟨rfl, ?_, ?_⟩
  · intro data hin hout
    simp [convertPost, hin, hout]
  · unfold restartPost
    cases h : findMarimoProxyState handlers with
    | none => rfl
    | some st =>
      by_cases h1 : st.isTruthy = false
      · simp [h1, HandlerResult.isResponse]
      · by_cases h2 : st.hasLock = false
        · simp [h1, h2, HandlerResult.isResponse]
        · cases hp : st.proc with
          | none => simp [h1, h2, hp, HandlerResult.isResponse]
          | some p =>
            by_cases hs : p = ProcVal.sentinel
            · simp [h1, h2, hp, hs, HandlerResult.isResponse]
            · cases hk : kill p <;>
                simp [h1, h2, hp, hs, hk, HandlerResult.isResponse]

/-- C3 amended witness: concrete instances of the three conjuncts at a
malformed body, a tool-location failure, and an empty route table. -/
theorem error_containment_amended_witness :
    (convertPost none (.ok ["marimo"]) (fun _ => ⟨0, "", ""⟩)).1 =
      .uncaught "json.JSONDecodeError" ∧
    (convertPost (some [("input", "b.ipynb"), ("output", "b.py")])
      (.error "tool missing") (fun _ => ⟨0, "", ""⟩)).1 =
      .uncaught "tool missing" ∧
    (restartPost [] (fun _ => .ok)).result.isResponse = true := by
  have h := error_containment_amended (.ok ["marimo"]) (fun _ => ⟨0, "", ""⟩)
    [] (fun _ => .ok) "tool missing"
  exact ⟨h.1, h.2.1 _ (by decide) (by decide), h.2.2⟩

/-- C8: per field independently, a structured-override value that is
not left at its unset sentinel strictly overrides the corresponding
environment variable, and the environment variable strictly overrides
the built-in default (for the timeout, when its value parses as an
integer; for the runner path, with the generic fallback variable
before the default). -/
theorem settings_priority (env : Env) (ov : Overrides) :
    (∀ v, ov.marimo_path = some v →
      (get_config env ov).marimo_path = some v) ∧
    (ov.marimo_path = none →
      (get_config env ov).marimo_path = env.marimoPathVar) ∧
    (∀ v, ov.uvx_path = some v →
      (get_config env ov).uvx_path = some v) ∧
    (∀ v, ov.uvx_path = none → env.uvxPathVar = some v →
      (get_config env ov).uvx_path = some v) ∧
    (ov.uvx_path = none → env.uvxPathVar = none → env.uvVar = none →
      (get_config env ov).uvx_path = none) ∧
    (∀ t, ov.timeout = some t → (get_config env ov).timeout = t) ∧
    (∀ s n, ov.timeout = none → env.timeoutVar = some s →
      parsePyInt s = some n → (get_config env ov).timeout = n) ∧
    (ov.timeout = none → env.timeoutVar = none →
      (get_config env ov).timeout = DEFAULT_TIMEOUT) := by
  refine ⟨?_, ?_, ?_, ?_, ?_, ?_, ?_, ?_⟩ <;> intros <;> simp_all [get_config]

/-- C8 witness: with the environment carrying `/env/marimo` and `30`
and the structured override carrying `/traitlets/marimo` and `90`, the
overrides win; dropping the overrides lets the environment win. -/
theorem settings_priority_witness :
    (get_config ⟨some "/env/marimo", none, some "30", none, none⟩
      ⟨some "/traitlets/marimo", none, some 90⟩).marimo_path =
      some "/traitlets/marimo" ∧
    (get_config ⟨some "/env/marimo", none, some "30", none, none⟩
      ⟨some "/traitlets/marimo", none, some 90⟩).timeout = 90 ∧
    (get_config ⟨some "/env/marimo", none, some "30", none, none⟩
      ⟨none, none, none⟩).timeout = 30 ∧
    (get_config ⟨some "/env/marimo", none, some "30", none, none⟩
      ⟨none, none, none⟩).marimo_path = some "/env/marimo" :=
  ⟨(settings_priority _ _).1 _ rfl,
   (settings_priority _ _).2.2.2.2.2.1 _ rfl,
   (settings_priority _ _).2.2.2.2.2.2.1 "30" 30 rfl rfl (by decide),
   (settings_priority _ _).2.1 rfl⟩

/-- C9: when the timeout environment variable is set to a value that
does not parse as an integer and the structured override leaves the
timeout unset, the resolved timeout is exactly the built-in default
and no error is surfaced. -/
theorem invalid_timeout_env_default (env : Env) (s : String)
    (hs : env.timeoutVar = some s) (hbad : parsePyInt s = none) :
    (get_config env ⟨none, none, none⟩).timeout = DEFAULT_TIMEOUT := by
  simp [get_config, hs, hbad]

/-- C9 witness: the environment value "not_a_number" fails to parse
and resolution yields the built-in default timeout. -/
theorem invalid_timeout_env_default_witness :
    (get_config ⟨none, none, some "not_a_number", none, none⟩
      ⟨none, none, none⟩).timeout = DEFAULT_TIMEOUT :=
  invalid_timeout_env_default _ "not_a_number" rfl (by decide)

end MarimoProxy
